import Mathlib

/-!
# go-blog: the blog handler of `main.go`

A shallow embedding of `handleBlog`, `renderBlogList` and `renderPost`
(`src/main.go`) together with the parts of the Go standard library whose
behaviour decides what they write: `strings.TrimPrefix`, `http.Error`,
`http.NotFound` and the escapers `html/template` inserts into the two
templates.

Go strings that reach the handler are modelled as Lean `String`s (sequences
of Unicode scalar values): `encoding/json` only produces valid UTF-8, and a
request path is taken to be valid UTF-8 as well.
-/

namespace GoBlog

/-! ## Data model (`main.go` lines 12-25) -/

/-- BlogPost represents a single blog post (`main.go` lines 13-20). -/
structure BlogPost where
  ID : Int
  Title : String
  Slug : String
  Date : String
  Text : String
  IsPublished : Bool
  deriving DecidableEq, Repr

/-- BlogData represents the entire JSON structure (`main.go` lines 23-25). -/
structure BlogData where
  Posts : List BlogPost
  deriving DecidableEq, Repr

/-- What a handler has written to its `http.ResponseWriter` when it returns:
the status code and the body. -/
structure Response where
  status : Nat
  body : String
  deriving DecidableEq, Repr

/-! ## Standard library: `strings`, `net/http` -/

/-- Go `strings.TrimPrefix(s, p)`: `s` without the leading `p` when `s` starts
with `p`, and `s` unchanged otherwise. -/
def TrimPrefix (s p : String) : String :=
  if p.data.isPrefixOf s.data then String.mk (s.data.drop p.data.length) else s

/-- Go `http.StatusInternalServerError`. -/
def StatusInternalServerError : Nat := 500

/-- Go `http.StatusNotFound`. -/
def StatusNotFound : Nat := 404

/-- Go `http.StatusOK`, the status of a response whose handler writes a body
without calling `WriteHeader`. -/
def StatusOK : Nat := 200

/-- Go `http.Error(w, msg, code)`: the status is `code` and the body is `msg`
followed by a newline (`fmt.Fprintln`). -/
def httpError (msg : String) (code : Nat) : Response :=
  { status := code, body := msg ++ "\n" }

/-- Go `http.NotFound(w, r)`: `Error(w, "404 page not found", StatusNotFound)`. -/
def httpNotFound : Response :=
  httpError "404 page not found" StatusNotFound

/-! ## Standard library: the escapers of `html/template` -/

/-- Go `html/template`, `htmlReplacementTable`: a slice of 63 strings indexed
by rune, empty where the rune is not replaced. -/
def htmlReplacementTable (r : Nat) : String :=
  if r = 0 then "\uFFFD"
  else if r = 34 then "&#34;"
  else if r = 38 then "&amp;"
  else if r = 39 then "&#39;"
  else if r = 43 then "&#43;"
  else if r = 60 then "&lt;"
  else if r = 62 then "&gt;"
  else ""

/-- Length of `htmlReplacementTable` (its last index is the rune `>`, 62). -/
def htmlReplacementTableLen : Nat := 63

/-- What `htmlReplacer` writes for one rune: its replacement when the table
has a non-empty entry for it, the rune itself otherwise. -/
def htmlReplaceRune (c : Char) : List Char :=
  if c.toNat < htmlReplacementTableLen then
    if (htmlReplacementTable c.toNat).length ≠ 0 then (htmlReplacementTable c.toNat).data
    else [c]
  else [c]

/-- Go `html/template`, `htmlReplacer(s, htmlReplacementTable, true)`: every
rune with a table entry is replaced, every other rune is copied. -/
def htmlReplacer (s : String) : String :=
  String.mk (s.data.flatMap htmlReplaceRune)

/-- Go `html/template`, `htmlEscaper` at a plain string (content type plain):
the escaper of an action in element content. -/
def htmlEscaper (s : String) : String := htmlReplacer s

/-- Go `html/template`, `rcdataEscaper` at a plain string: the escaper of an
action inside `<title>`. -/
def rcdataEscaper (s : String) : String := htmlReplacer s

/-- Go `html/template`, `attrEscaper` at a plain string: the last escaper of an
action inside a quoted attribute value. -/
def attrEscaper (s : String) : String := htmlReplacer s

/-- UTF-8 encoding of a code point, as the bytes of a Go string. -/
def utf8Bytes (n : Nat) : List Nat :=
  if n < 0x80 then [n]
  else if n < 0x800 then [0xC0 + n / 64, 0x80 + n % 64]
  else if n < 0x10000 then [0xE0 + n / 4096, 0x80 + (n / 64) % 64, 0x80 + n % 64]
  else [0xF0 + n / 262144, 0x80 + (n / 4096) % 64, 0x80 + (n / 64) % 64, 0x80 + n % 64]

/-- Go `html/template`, `isHex`. -/
def isHex (c : Nat) : Bool :=
  (48 ≤ c && c ≤ 57) || (97 ≤ c && c ≤ 102) || (65 ≤ c && c ≤ 70)

/-- Lower-case hexadecimal digit, as `fmt` prints `%x`. -/
def hexDigit (n : Nat) : Char :=
  if n < 10 then Char.ofNat (48 + n) else Char.ofNat (87 + n)

/-- The bytes `processURLOnto` leaves alone when `norm` is true: the reserved
characters of its first `case`, the unreserved ones, and a `%` that starts a
valid escape (`rest` is what follows the byte). -/
def urlKeep (c : Nat) (rest : List Nat) : Bool :=
  -- case '!', '#', '$', '&', '*', '+', ',', '/', ':', ';', '=', '?', '@', '[', ']'
  (c = 33 || c = 35 || c = 36 || c = 38 || c = 42 || c = 43 || c = 44 || c = 47
    || c = 58 || c = 59 || c = 61 || c = 63 || c = 64 || c = 91 || c = 93)
  -- case '-', '.', '_', '~'
  || (c = 45 || c = 46 || c = 95 || c = 126)
  -- case '%': norm && i+2 < len(s) && isHex(s[i+1]) && isHex(s[i+2])
  || (c = 37 && match rest with
        | h1 :: h2 :: _ => isHex h1 && isHex h2
        | _ => false)
  -- default: 'a'..'z', 'A'..'Z', '0'..'9'
  || (97 ≤ c && c ≤ 122) || (65 ≤ c && c ≤ 90) || (48 ≤ c && c ≤ 57)

/-- Go `html/template`, `processURLOnto(s, true, b)` over the bytes of `s`: a
kept byte is copied, any other byte `c` is written as `%` and two hex digits
(`fmt.Fprintf(b, "%%%02x", c)`). -/
def processURLOnto : List Nat → List Char
  | [] => []
  | c :: rest =>
    if urlKeep c rest then Char.ofNat c :: processURLOnto rest
    else '%' :: hexDigit (c / 16) :: hexDigit (c % 16) :: processURLOnto rest

/-- Go `html/template`, `urlNormalizer` at a plain string. -/
def urlNormalizer (s : String) : String :=
  String.mk (processURLOnto (s.data.flatMap fun c => utf8Bytes c.toNat))

/-! ## `renderBlogList` (`main.go` lines 77-128) -/

/-- Template text of `renderBlogList` before `{{range .Posts}}`
(`main.go` lines 78-104). -/
def blogListHead : String :=
  String.join [
    "\n",
    "\t<!DOCTYPE html>\n",
    "\t<html>\n",
    "\t<head>\n",
    "\t\t<title>Blog Posts</title>\n",
    "\t\t<style>\n",
    "\t\t\t.card \x7b\n",
    "\t\t\t\tborder: 1px solid #ddd;\n",
    "\t\t\t\tpadding: 15px;\n",
    "\t\t\t\tmargin: 10px;\n",
    "\t\t\t\tborder-radius: 5px;\n",
    "\t\t\t\tmax-width: 300px;\n",
    "\t\t\t\tdisplay: inline-block;\n",
    "\t\t\t\x7d\n",
    "\t\t\t.date \x7b\n",
    "\t\t\t\tcolor: #666;\n",
    "\t\t\t\tfont-size: 0.9em;\n",
    "\t\t\t\x7d\n",
    "\t\t\ta \x7b\n",
    "\t\t\t\ttext-decoration: none;\n",
    "\t\t\t\tcolor: inherit;\n",
    "\t\t\t\x7d\n",
    "\t\t</style>\n",
    "\t</head>\n",
    "\t<body>\n",
    "\t\t<h1>Blog Posts</h1>\n",
    "\t\t"]

/-- Template text between `{{range .Posts}}` and `{{if .IsPublished}}`
(`main.go` lines 104-105). -/
def blogListRangeOpen : String := "\n\t\t\t"

/-- Template text between the `{{end}}` of the `if` and the `{{end}}` of the
`range` (`main.go` lines 112-113). -/
def blogListRangeClose : String := "\n\t\t"

/-- Template text of `renderBlogList` after the `range` (`main.go` lines 113-116). -/
def blogListTail : String :=
  String.join [
    "\n",
    "\t</body>\n",
    "\t</html>\n",
    "\t"]

/-- The body of `{{if .IsPublished}}` executed at one post (`main.go` lines
105-112): `.Slug` sits in the path part of a quoted URL attribute (escapers
`urlNormalizer` then `attrEscaper`), `.Title` and `.Date` in element content
(`htmlEscaper`). -/
def blogListCard (post : BlogPost) : String :=
  String.join [
    "\n",
    "\t\t\t<a href=\"/blog/", attrEscaper (urlNormalizer post.Slug), "\">\n",
    "\t\t\t\t<div class=\"card\">\n",
    "\t\t\t\t\t<h2>", htmlEscaper post.Title, "</h2>\n",
    "\t\t\t\t\t<div class=\"date\">", htmlEscaper post.Date, "</div>\n",
    "\t\t\t\t</div>\n",
    "\t\t\t</a>\n",
    "\t\t\t"]

/-- One iteration of `{{range .Posts}}` (`main.go` lines 104-113). -/
def blogListItem (post : BlogPost) : String :=
  blogListRangeOpen
    ++ (if post.IsPublished then blogListCard post else "")
    ++ blogListRangeClose

/-- The document `t.Execute(w, blogData)` writes for the template of
`renderBlogList`. -/
def blogListPage (blogData : BlogData) : String :=
  blogListHead ++ String.join (blogData.Posts.map blogListItem) ++ blogListTail

/-- Go `renderBlogList(w, blogData)` (`main.go` lines 77-128). The template is
a constant that parses and whose execution reads only fields that exist, so
neither error branch is taken; the first write sets status 200. -/
def renderBlogList (blogData : BlogData) : Response :=
  { status := StatusOK, body := blogListPage blogData }

/-! ## `renderPost` (`main.go` lines 130-176) -/

/-- Template text of `renderPost` before the first `{{.Title}}`
(`main.go` lines 131-135). -/
def postHead : String :=
  String.join [
    "\n",
    "\t<!DOCTYPE html>\n",
    "\t<html>\n",
    "\t<head>\n",
    "\t\t<title>"]

/-- Template text of `renderPost` between the two `{{.Title}}`
(`main.go` lines 135-156). -/
def postStyle : String :=
  String.join [
    "</title>\n",
    "\t\t<style>\n",
    "\t\t\t.container \x7b\n",
    "\t\t\t\tmax-width: 800px;\n",
    "\t\t\t\tmargin: 0 auto;\n",
    "\t\t\t\tpadding: 20px;\n",
    "\t\t\t\x7d\n",
    "\t\t\t.date \x7b\n",
    "\t\t\t\tcolor: #666;\n",
    "\t\t\t\tfont-size: 0.9em;\n",
    "\t\t\t\tmargin-bottom: 20px;\n",
    "\t\t\t\x7d\n",
    "\t\t\t.back-link \x7b\n",
    "\t\t\t\tdisplay: block;\n",
    "\t\t\t\tmargin-bottom: 20px;\n",
    "\t\t\t\x7d\n",
    "\t\t</style>\n",
    "\t</head>\n",
    "\t<body>\n",
    "\t\t<div class=\"container\">\n",
    "\t\t\t<a href=\"/blog\" class=\"back-link\">← Back to all posts</a>\n",
    "\t\t\t<h1>"]

/-- Template text of `renderPost` between `{{.Title}}` and `{{.Date}}`
(`main.go` lines 156-157). -/
def postBeforeDate : String :=
  String.join [
    "</h1>\n",
    "\t\t\t<div class=\"date\">"]

/-- Template text of `renderPost` between `{{.Date}}` and `{{.Text}}`
(`main.go` lines 157-159). -/
def postBeforeText : String :=
  String.join [
    "</div>\n",
    "\t\t\t<div class=\"content\">\n",
    "\t\t\t\t"]

/-- Template text of `renderPost` after `{{.Text}}` (`main.go` lines 159-164). -/
def postTail : String :=
  String.join [
    "\n",
    "\t\t\t</div>\n",
    "\t\t</div>\n",
    "\t</body>\n",
    "\t</html>\n",
    "\t"]

/-- The document `t.Execute(w, post)` writes for the template of `renderPost`:
`.Title` inside `<title>` goes through `rcdataEscaper`, and `.Title`, `.Date`
and `.Text` in element content through `htmlEscaper`. -/
def postPage (post : BlogPost) : String :=
  postHead ++ rcdataEscaper post.Title ++ postStyle ++ htmlEscaper post.Title
    ++ postBeforeDate ++ htmlEscaper post.Date
    ++ postBeforeText ++ htmlEscaper post.Text ++ postTail

/-- Go `renderPost(w, post)` (`main.go` lines 130-176); as for
`renderBlogList`, neither error branch is taken. -/
def renderPost (post : BlogPost) : Response :=
  { status := StatusOK, body := postPage post }

/-! ## `handleBlog` (`main.go` lines 45-75) -/

/-- The loop of `main.go` lines 63-68: the first post of the sequence with
`post.Slug == path && post.IsPublished`, if there is one. -/
def findPost (path : String) : List BlogPost → Option BlogPost
  | [] => none
  | post :: rest =>
    if post.Slug == path && post.IsPublished then some post
    else findPost path rest

/-- The call with which `handleBlog` ends. -/
inductive Call where
  /-- The call `http.Error(w, msg, code)`. -/
  | error (msg : String) (code : Nat)
  /-- The call `renderPost(w, post)`. -/
  | renderPost (post : BlogPost)
  /-- The call `http.NotFound(w, r)`. -/
  | notFound
  /-- The call `renderBlogList(w, blogData)`. -/
  | renderBlogList (blogData : BlogData)
  deriving DecidableEq, Repr

/-- What a `Call` writes to the response. -/
def Call.run : Call → Response
  | .error msg code => httpError msg code
  | .renderPost post => GoBlog.renderPost post
  | .notFound => httpNotFound
  | .renderBlogList blogData => GoBlog.renderBlogList blogData

/-- The control flow of `handleBlog` (`main.go` lines 45-75). `file` is the
outcome of `ioutil.ReadFile("static/data/blog-posts.json")` (`none` when it
returns an error), `unmarshal` is `json.Unmarshal` into a `BlogData` (`none`
when it returns an error), `urlPath` is `r.URL.Path`. -/
def handleBlogCall (file : Option (List UInt8))
    (unmarshal : List UInt8 → Option BlogData) (urlPath : String) : Call :=
  match file with
  | none => .error "Error reading blog posts" StatusInternalServerError
  | some data =>
    match unmarshal data with
    | none => .error "Error parsing blog posts" StatusInternalServerError
    | some blogData =>
      let path := TrimPrefix urlPath "/blog/"
      if path != "" && path != "blog" then
        match findPost path blogData.Posts with
        | some post => .renderPost post
        | none => .notFound
      else
        .renderBlogList blogData

/-- Go `handleBlog(w, r)`: the response it leaves in `w`. -/
def handleBlog (file : Option (List UInt8))
    (unmarshal : List UInt8 → Option BlogData) (urlPath : String) : Response :=
  (handleBlogCall file unmarshal urlPath).run

/-! ## `main` (`main.go` lines 27-43): the routes of the default `ServeMux` -/

/-- The components of a path between its slashes. -/
def splitSlash : List Char → List (List Char)
  | [] => [[]]
  | c :: cs =>
    if c = '/' then [] :: splitSlash cs
    else
      match splitSlash cs with
      | [] => [[c]]
      | h :: t => (c :: h) :: t

/-- Go `path.Clean` on the components of a rooted path: empty components and
`.` are dropped, `..` drops the component before it (none at the root).
`stack` holds the components kept so far, last first. -/
def cleanComponents : List (List Char) → List (List Char) → List (List Char)
  | stack, [] => stack.reverse
  | stack, c :: cs =>
    if c = [] ∨ c = ['.'] then cleanComponents stack cs
    else if c = ['.', '.'] then cleanComponents (stack.drop 1) cs
    else cleanComponents (c :: stack) cs

/-- Go `path.Clean` at a rooted path. -/
def pathClean (p : List Char) : List Char :=
  '/' :: List.intercalate ['/'] (cleanComponents [] (splitSlash p))

/-- Go `net/http`, `cleanPath`: the canonical form of a request path; the
trailing slash that `path.Clean` removes is put back. -/
def cleanPath (p : String) : String :=
  if p.data = [] then "/"
  else
    let rooted := if p.data.head? = some '/' then p.data else '/' :: p.data
    let np := pathClean rooted
    if rooted.getLast? = some '/' && np != ['/'] then String.mk (np ++ ['/'])
    else String.mk np

/-- The handlers `main` registers (`main.go` lines 29-36). -/
inductive Handler where
  /-- The file server under the pattern `/static/` (line 30). -/
  | static
  /-- The handler `handleBlog` under the pattern `/blog/` (line 33). -/
  | blog
  /-- The handler of the pattern `/` (lines 34-36). -/
  | hello
  deriving DecidableEq, Repr

/-- What the mux does with a request. -/
inductive Route where
  /-- The mux answers itself, 301 Moved Permanently, with the `Location`. -/
  | redirect (location : String)
  /-- The mux calls the handler with the request unchanged. -/
  | serve (h : Handler)
  deriving DecidableEq, Repr

/-- The patterns registered on the mux (`main.go` lines 30, 33, 34). -/
def muxPatterns : List String := ["/static/", "/blog/", "/"]

/-- Go `(*ServeMux).match` at the patterns of `main`: an exact match, else the
longest registered pattern that is a prefix of the path. -/
def muxMatch (path : String) : Handler :=
  if "/static/".data.isPrefixOf path.data then .static
  else if "/blog/".data.isPrefixOf path.data then .blog
  else .hello

/-- Go `(*ServeMux).Handler` for a request that is not a `CONNECT`, at the
patterns of `main`: a path that is not registered and whose extension by `/`
is registered is redirected to that extension; a path that is not canonical
is redirected to its canonical form; any other path goes to the matching
handler. -/
def muxHandler (urlPath : String) : Route :=
  let path := cleanPath urlPath
  if path ∉ muxPatterns ∧ path.data ≠ [] ∧ (path ++ "/") ∈ muxPatterns
      ∧ path.data.getLast? ≠ some '/' then
    .redirect (path ++ "/")
  else if path ≠ urlPath then .redirect path
  else .serve (muxMatch urlPath)

/-! ## Reference definitions, worded after the specification -/

/-- Specification, Post Selector: "scan the sequence in order and select the
first post whose slug equals the suffix AND whose `isPublished` flag is
true". -/
def selectPostSpec (suffix : String) (posts : List BlogPost) : Option BlogPost :=
  posts.find? fun post => decide (post.Slug = suffix) && post.IsPublished

/-- Specification, Post Selector for a candidate slug: the detail view of the
selected post, and `NotFound` (404) when no post is selected. -/
def detailOrNotFoundSpec (suffix : String) (posts : List BlogPost) : Response :=
  match selectPostSpec suffix posts with
  | some post => renderPost post
  | none => httpNotFound

/-! ## Concrete stores -/

/-- The post "Hi" of the specification's concrete scenario. -/
def postHi : BlogPost :=
  { ID := 1, Title := "Hi", Slug := "hi", Date := "2024-01-01", Text := "Hello",
    IsPublished := true }

/-- The post "Draft" of the specification's concrete scenario. -/
def postDraft : BlogPost :=
  { ID := 2, Title := "Draft", Slug := "draft", Date := "2024-02-01", Text := "WIP",
    IsPublished := false }

/-- The store of the specification's concrete scenario. -/
def scenarioStore : BlogData := { Posts := [postHi, postDraft] }

/-- A `json.Unmarshal` that succeeds with the given store. -/
def unmarshalTo (blogData : BlogData) : List UInt8 → Option BlogData :=
  fun _ => some blogData

/-- Number of positions of `s` at which `pat` starts. -/
def occurrences (pat : List Char) : List Char → Nat
  | [] => if pat.isPrefixOf [] then 1 else 0
  | c :: s => (if pat.isPrefixOf (c :: s) then 1 else 0) + occurrences pat s

/-- A published post whose slug is the route marker `blog`. -/
def postNamedBlog : BlogPost :=
  { ID := 7, Title := "About this blog", Slug := "blog", Date := "2024-03-01",
    Text := "Colophon", IsPublished := true }

/-- A published post whose slug is empty. -/
def postNoSlug : BlogPost :=
  { ID := 8, Title := "Untitled", Slug := "", Date := "2024-03-02", Text := "Body",
    IsPublished := true }

/-- An unpublished post whose slug is the route marker `blog`. -/
def postHiddenBlog : BlogPost :=
  { ID := 9, Title := "Hidden", Slug := "blog", Date := "2024-03-03", Text := "Secret",
    IsPublished := false }

/-- A published post with slug `dup`. -/
def postDupFirst : BlogPost :=
  { ID := 3, Title := "First", Slug := "dup", Date := "2024-04-01", Text := "Alpha",
    IsPublished := true }

/-- A second published post with slug `dup`. -/
def postDupSecond : BlogPost :=
  { ID := 4, Title := "Second", Slug := "dup", Date := "2024-04-02", Text := "Omega",
    IsPublished := true }

/-- An unpublished post with slug `dup`. -/
def postDupHidden : BlogPost :=
  { ID := 5, Title := "Third", Slug := "dup", Date := "2024-04-03", Text := "Sigma",
    IsPublished := false }

/-- A published post whose fields hold markup characters. -/
def postMarkup : BlogPost :=
  { ID := 6, Title := "a<b", Slug := "markup", Date := "1 & 2", Text := "<b>bold</b>",
    IsPublished := true }

/-- A published post whose slug holds a space. -/
def postSpaced : BlogPost :=
  { ID := 12, Title := "Spaced", Slug := "a b", Date := "2024-05-01", Text := "Gap",
    IsPublished := true }

/-- A published post whose slug holds a letter outside ASCII. -/
def postAccent : BlogPost :=
  { ID := 13, Title := "Accent", Slug := "café", Date := "2024-05-02", Text := "Tasse",
    IsPublished := true }

/-- A published post with the slug, title and date of `postHi` and another
id and text. -/
def postHiCopy : BlogPost :=
  { ID := 11, Title := "Hi", Slug := "hi", Date := "2024-01-01", Text := "Other",
    IsPublished := true }

/-! ## Vocabulary of the statements -/

/-- Cards woven between gaps: `g₀ c₁ g₁ c₂ … cₖ gₖ`. -/
def weave : List String → List String → String
  | g :: gaps, c :: cards => g ++ c ++ weave gaps cards
  | g :: _, [] => g
  | [], _ => ""

/-- A string of newlines and tabs only. -/
def isBlank (g : String) : Bool := g.data.all fun c => c == '\n' || c == '\t'

/-- Runes for which `htmlReplacementTable` has no entry. -/
def htmlPlain (c : Char) : Bool :=
  c != '\x00' && c != '"' && c != '&' && c != '\'' && c != '+' && c != '<' && c != '>'

/-- Runes `processURLOnto` counts as unreserved (RFC 3986 section 2.3):
letters, digits, `-`, `.`, `_` and `~`. -/
def urlUnreserved (c : Char) : Bool :=
  (97 ≤ c.toNat && c.toNat ≤ 122) || (65 ≤ c.toNat && c.toNat ≤ 90)
    || (48 ≤ c.toNat && c.toNat ≤ 57)
    || c.toNat = 45 || c.toNat = 46 || c.toNat = 95 || c.toNat = 126

/-- No rune of the list is `<`, with which every tag starts. -/
def noTagOpen (l : List Char) : Bool := l.all fun c => c != '<'

/-- The fields of a post a card is made of: slug, title and date. -/
def cardKey (post : BlogPost) : String × String × String :=
  (post.Slug, post.Title, post.Date)

/-! ## Lemmas on strings -/

theorem TrimPrefix_append (p s : String) : TrimPrefix (p ++ s) p = s := by
  have h : p.data.isPrefixOf (p.data ++ s.data) = true := by
    rw [List.isPrefixOf_iff_prefix]
    exact List.prefix_append _ _
  simp [TrimPrefix, String.data_append, h]

theorem findPost_eq_find (path : String) (posts : List BlogPost) :
    findPost path posts = selectPostSpec path posts := by
  induction posts with
  | nil => rfl
  | cons post rest ih =>
    unfold selectPostSpec at ih ⊢
    by_cases h : post.Slug = path <;> cases hp : post.IsPublished <;>
      simp [findPost, List.find?, h, hp, ih]

theorem foldl_append_acc (l : List String) (acc : String) :
    l.foldl (fun r s => r ++ s) acc = acc ++ l.foldl (fun r s => r ++ s) "" := by
  induction l generalizing acc with
  | nil => simp
  | cons a l ih =>
    simp only [List.foldl_cons]
    rw [ih (acc ++ a), ih ("" ++ a), String.empty_append, String.append_assoc]

theorem join_cons (a : String) (l : List String) :
    String.join (a :: l) = a ++ String.join l := by
  simp only [String.join, List.foldl_cons]
  rw [foldl_append_acc, String.empty_append]

theorem weave_head_append (a g : String) (gaps cards : List String) :
    weave ((a ++ g) :: gaps) cards = a ++ weave (g :: gaps) cards := by
  cases cards with
  | nil => simp [weave]
  | cons c cards => simp [weave, String.append_assoc]

theorem isBlank_append {a b : String} (ha : isBlank a = true) (hb : isBlank b = true) :
    isBlank (a ++ b) = true := by
  simp only [isBlank, String.data_append, List.all_append, Bool.and_eq_true] at *
  exact ⟨ha, hb⟩

theorem infix_of_eq {body a m b : String} (h : body = a ++ m ++ b) :
    m.data <:+: body.data :=
  ⟨a.data, b.data, by rw [h, String.data_append, String.data_append]⟩

/-! ## Lemmas on the escapers -/

theorem htmlReplaceRune_plain (c : Char) (h : htmlPlain c = true) : htmlReplaceRune c = [c] := by
  have hne : ∀ n : Nat, c ≠ Char.ofNat n → c.toNat ≠ n := by
    intro n hc hn
    exact hc (by rw [← hn, Char.ofNat_toNat])
  simp only [htmlPlain, Bool.and_eq_true, bne_iff_ne, ne_eq] at h
  obtain ⟨⟨⟨⟨⟨⟨h0, h1⟩, h2⟩, h3⟩, h4⟩, h5⟩, h6⟩ := h
  have e0 := hne 0 h0
  have e1 := hne 34 h1
  have e2 := hne 38 h2
  have e3 := hne 39 h3
  have e4 := hne 43 h4
  have e5 := hne 60 h5
  have e6 := hne 62 h6
  simp [htmlReplaceRune, htmlReplacementTable, e0, e1, e2, e3, e4, e5, e6]

theorem htmlReplacer_plain (s : String) (h : s.data.all htmlPlain = true) :
    htmlReplacer s = s := by
  apply String.ext
  simp only [htmlReplacer]
  rw [List.all_eq_true] at h
  generalize s.data = l at h
  induction l with
  | nil => rfl
  | cons c l ih =>
    rw [List.flatMap_cons, htmlReplaceRune_plain c (h c (by simp)),
      ih (fun x hx => h x (by simp [hx]))]
    rfl

theorem urlUnreserved_htmlPlain (c : Char) (h : urlUnreserved c = true) :
    htmlPlain c = true := by
  simp only [htmlPlain, Bool.and_eq_true, bne_iff_ne, ne_eq]
  refine ⟨⟨⟨⟨⟨⟨?_, ?_⟩, ?_⟩, ?_⟩, ?_⟩, ?_⟩, ?_⟩ <;>
    (intro hc; subst hc; revert h; decide)

theorem urlKeep_range (n : Nat) (rest : List Nat)
    (h : (97 ≤ n ∧ n ≤ 122) ∨ (65 ≤ n ∧ n ≤ 90) ∨ (48 ≤ n ∧ n ≤ 57)) :
    urlKeep n rest = true := by
  unfold urlKeep
  rcases h with h | h | h
  · rw [decide_eq_true h.1, decide_eq_true h.2]
    simp only [Bool.and_self, Bool.or_true, Bool.true_or]
  · rw [decide_eq_true h.1, decide_eq_true h.2]
    simp only [Bool.and_self, Bool.or_true, Bool.true_or]
  · rw [decide_eq_true h.1, decide_eq_true h.2]
    simp only [Bool.and_self, Bool.or_true, Bool.true_or]

theorem urlKeep_mark (n : Nat) (rest : List Nat)
    (h : n = 45 ∨ n = 46 ∨ n = 95 ∨ n = 126) : urlKeep n rest = true := by
  unfold urlKeep
  rcases h with h | h | h | h
  · rw [decide_eq_true h]
    simp only [Bool.or_true, Bool.true_or]
  · rw [decide_eq_true h]
    simp only [Bool.or_true, Bool.true_or]
  · rw [decide_eq_true h]
    simp only [Bool.or_true, Bool.true_or]
  · rw [decide_eq_true h]
    simp only [Bool.or_true, Bool.true_or]

theorem urlKeep_unreserved (c : Char) (rest : List Nat) (h : urlUnreserved c = true) :
    urlKeep c.toNat rest = true := by
  simp only [urlUnreserved, Bool.or_eq_true, Bool.and_eq_true, decide_eq_true_eq] at h
  rcases h with (((((h | h) | h) | h) | h) | h) | h
  · exact urlKeep_range _ _ (Or.inl h)
  · exact urlKeep_range _ _ (Or.inr (Or.inl h))
  · exact urlKeep_range _ _ (Or.inr (Or.inr h))
  · exact urlKeep_mark _ _ (Or.inl h)
  · exact urlKeep_mark _ _ (Or.inr (Or.inl h))
  · exact urlKeep_mark _ _ (Or.inr (Or.inr (Or.inl h)))
  · exact urlKeep_mark _ _ (Or.inr (Or.inr (Or.inr h)))

theorem utf8Bytes_unreserved (c : Char) (h : urlUnreserved c = true) :
    utf8Bytes c.toNat = [c.toNat] := by
  simp only [urlUnreserved, Bool.or_eq_true, Bool.and_eq_true, decide_eq_true_eq] at h
  have hlt : c.toNat < 0x80 := by omega
  simp [utf8Bytes, hlt]

theorem processURLOnto_unreserved (l : List Char) (h : ∀ c ∈ l, urlUnreserved c = true) :
    processURLOnto (l.flatMap fun c => utf8Bytes c.toNat) = l := by
  induction l with
  | nil => rfl
  | cons c l ih =>
    rw [List.flatMap_cons, utf8Bytes_unreserved c (h c (by simp))]
    show processURLOnto (c.toNat :: l.flatMap fun c => utf8Bytes c.toNat) = c :: l
    rw [processURLOnto, urlKeep_unreserved c _ (h c (by simp)), if_pos rfl,
      ih (fun x hx => h x (by simp [hx])), Char.ofNat_toNat]

/-- A slug of unreserved characters is written into the `href` unchanged. -/
theorem slug_unreserved (s : String) (h : s.data.all urlUnreserved = true) :
    attrEscaper (urlNormalizer s) = s := by
  rw [List.all_eq_true] at h
  have hnorm : urlNormalizer s = s := by
    apply String.ext
    simp only [urlNormalizer]
    exact processURLOnto_unreserved s.data h
  rw [hnorm]
  apply htmlReplacer_plain
  rw [List.all_eq_true]
  exact fun c hc => urlUnreserved_htmlPlain c (h c hc)

/-! ## Lemmas on the two pages -/

theorem blogListItems_weave (posts : List BlogPost) :
    ∃ gaps : List String,
      gaps.length = (posts.filter (·.IsPublished)).length + 1 ∧
      (∀ g ∈ gaps, isBlank g = true) ∧
      String.join (posts.map blogListItem)
        = weave gaps ((posts.filter (·.IsPublished)).map blogListCard) := by
  induction posts with
  | nil => exact ⟨[""], rfl, by simp [isBlank], rfl⟩
  | cons p ps ih =>
    obtain ⟨gaps, hlen, hblank, hjoin⟩ := ih
    cases gaps with
    | nil => simp at hlen
    | cons g0 gs =>
      have hopen : isBlank blogListRangeOpen = true := by decide
      have hclose : isBlank blogListRangeClose = true := by decide
      cases hp : p.IsPublished with
      | false =>
        refine ⟨(blogListRangeOpen ++ blogListRangeClose ++ g0) :: gs, ?_, ?_, ?_⟩
        · simpa [hp] using hlen
        · intro g hg
          rcases List.mem_cons.mp hg with h | h
          · subst h
            exact isBlank_append (isBlank_append hopen hclose) (hblank g0 (by simp))
          · exact hblank g (by simp [h])
        · rw [List.map_cons, join_cons, hjoin, weave_head_append]
          simp [blogListItem, hp, String.append_assoc]
      | true =>
        refine ⟨blogListRangeOpen :: (blogListRangeClose ++ g0) :: gs, ?_, ?_, ?_⟩
        · simpa [hp] using hlen
        · intro g hg
          rcases List.mem_cons.mp hg with h | h
          · subst h; exact hopen
          · rcases List.mem_cons.mp h with h | h
            · subst h
              exact isBlank_append hclose (hblank g0 (by simp))
            · exact hblank g (by simp [h])
        · rw [List.map_cons, join_cons, hjoin]
          simp [blogListItem, hp, weave, weave_head_append, String.append_assoc]

theorem blogListCard_link (post : BlogPost) :
    ("<a href=\"/blog/" ++ attrEscaper (urlNormalizer post.Slug) ++ "\">").data
      <:+: (blogListCard post).data := by
  apply infix_of_eq (a := "\n\t\t\t") (b := String.join [
    "\n",
    "\t\t\t\t<div class=\"card\">\n",
    "\t\t\t\t\t<h2>", htmlEscaper post.Title, "</h2>\n",
    "\t\t\t\t\t<div class=\"date\">", htmlEscaper post.Date, "</div>\n",
    "\t\t\t\t</div>\n",
    "\t\t\t</a>\n",
    "\t\t\t"])
  apply String.ext
  simp [blogListCard, String.join, String.data_append]

theorem blogListCard_title (post : BlogPost) :
    ("<h2>" ++ htmlEscaper post.Title ++ "</h2>").data <:+: (blogListCard post).data := by
  apply infix_of_eq (a := String.join [
    "\n",
    "\t\t\t<a href=\"/blog/", attrEscaper (urlNormalizer post.Slug), "\">\n",
    "\t\t\t\t<div class=\"card\">\n",
    "\t\t\t\t\t"]) (b := String.join [
    "\n",
    "\t\t\t\t\t<div class=\"date\">", htmlEscaper post.Date, "</div>\n",
    "\t\t\t\t</div>\n",
    "\t\t\t</a>\n",
    "\t\t\t"])
  apply String.ext
  simp [blogListCard, String.join, String.data_append]

theorem blogListCard_date (post : BlogPost) :
    ("<div class=\"date\">" ++ htmlEscaper post.Date ++ "</div>").data
      <:+: (blogListCard post).data := by
  apply infix_of_eq (a := String.join [
    "\n",
    "\t\t\t<a href=\"/blog/", attrEscaper (urlNormalizer post.Slug), "\">\n",
    "\t\t\t\t<div class=\"card\">\n",
    "\t\t\t\t\t<h2>", htmlEscaper post.Title, "</h2>\n",
    "\t\t\t\t\t"]) (b := String.join [
    "\n",
    "\t\t\t\t</div>\n",
    "\t\t\t</a>\n",
    "\t\t\t"])
  apply String.ext
  simp [blogListCard, String.join, String.data_append]

set_option maxRecDepth 100000 in
theorem postPage_title (post : BlogPost) :
    ("<h1>" ++ htmlEscaper post.Title ++ "</h1>").data <:+: (postPage post).data := by
  apply infix_of_eq
    (a := postHead ++ rcdataEscaper post.Title ++ String.join [
      "</title>\n",
      "\t\t<style>\n",
      "\t\t\t.container \x7b\n",
      "\t\t\t\tmax-width: 800px;\n",
      "\t\t\t\tmargin: 0 auto;\n",
      "\t\t\t\tpadding: 20px;\n",
      "\t\t\t\x7d\n",
      "\t\t\t.date \x7b\n",
      "\t\t\t\tcolor: #666;\n",
      "\t\t\t\tfont-size: 0.9em;\n",
      "\t\t\t\tmargin-bottom: 20px;\n",
      "\t\t\t\x7d\n",
      "\t\t\t.back-link \x7b\n",
      "\t\t\t\tdisplay: block;\n",
      "\t\t\t\tmargin-bottom: 20px;\n",
      "\t\t\t\x7d\n",
      "\t\t</style>\n",
      "\t</head>\n",
      "\t<body>\n",
      "\t\t<div class=\"container\">\n",
      "\t\t\t<a href=\"/blog\" class=\"back-link\">← Back to all posts</a>\n",
      "\t\t\t"])
    (b := String.join ["\n", "\t\t\t<div class=\"date\">"] ++ htmlEscaper post.Date
      ++ postBeforeText ++ htmlEscaper post.Text ++ postTail)
  apply String.ext
  simp [postPage, postStyle, postBeforeDate, String.join, String.data_append]

theorem postPage_date (post : BlogPost) :
    ("<div class=\"date\">" ++ htmlEscaper post.Date ++ "</div>").data
      <:+: (postPage post).data := by
  apply infix_of_eq
    (a := postHead ++ rcdataEscaper post.Title ++ postStyle ++ htmlEscaper post.Title
      ++ String.join ["</h1>\n", "\t\t\t"])
    (b := String.join ["\n", "\t\t\t<div class=\"content\">\n", "\t\t\t\t"]
      ++ htmlEscaper post.Text ++ postTail)
  apply String.ext
  simp [postPage, postBeforeDate, postBeforeText, String.join, String.data_append]

theorem postPage_text (post : BlogPost) :
    ("<div class=\"content\">\n\t\t\t\t" ++ htmlEscaper post.Text ++ "\n\t\t\t</div>").data
      <:+: (postPage post).data := by
  apply infix_of_eq
    (a := postHead ++ rcdataEscaper post.Title ++ postStyle ++ htmlEscaper post.Title
      ++ postBeforeDate ++ htmlEscaper post.Date ++ String.join ["</div>\n", "\t\t\t"])
    (b := String.join ["\n", "\t\t</div>\n", "\t</body>\n", "\t</html>\n", "\t"])
  apply String.ext
  simp [postPage, postBeforeText, postTail, String.join, String.data_append]

set_option maxRecDepth 100000 in
theorem postPage_head_title (post : BlogPost) :
    ("<title>" ++ rcdataEscaper post.Title ++ "</title>").data <:+: (postPage post).data := by
  apply infix_of_eq
    (a := String.join ["\n", "\t<!DOCTYPE html>\n", "\t<html>\n", "\t<head>\n", "\t\t"])
    (b := String.join [
      "\n",
      "\t\t<style>\n",
      "\t\t\t.container \x7b\n",
      "\t\t\t\tmax-width: 800px;\n",
      "\t\t\t\tmargin: 0 auto;\n",
      "\t\t\t\tpadding: 20px;\n",
      "\t\t\t\x7d\n",
      "\t\t\t.date \x7b\n",
      "\t\t\t\tcolor: #666;\n",
      "\t\t\t\tfont-size: 0.9em;\n",
      "\t\t\t\tmargin-bottom: 20px;\n",
      "\t\t\t\x7d\n",
      "\t\t\t.back-link \x7b\n",
      "\t\t\t\tdisplay: block;\n",
      "\t\t\t\tmargin-bottom: 20px;\n",
      "\t\t\t\x7d\n",
      "\t\t</style>\n",
      "\t</head>\n",
      "\t<body>\n",
      "\t\t<div class=\"container\">\n",
      "\t\t\t<a href=\"/blog\" class=\"back-link\">← Back to all posts</a>\n",
      "\t\t\t<h1>"] ++ htmlEscaper post.Title
      ++ postBeforeDate ++ htmlEscaper post.Date
      ++ postBeforeText ++ htmlEscaper post.Text ++ postTail)
  apply String.ext
  simp [postPage, postHead, postStyle, String.join, String.data_append]

set_option maxRecDepth 100000 in
theorem postPage_back_link (post : BlogPost) :
    "<a href=\"/blog\" class=\"back-link\">← Back to all posts</a>".data
      <:+: (postPage post).data := by
  apply infix_of_eq
    (a := postHead ++ rcdataEscaper post.Title ++ String.join [
      "</title>\n",
      "\t\t<style>\n",
      "\t\t\t.container \x7b\n",
      "\t\t\t\tmax-width: 800px;\n",
      "\t\t\t\tmargin: 0 auto;\n",
      "\t\t\t\tpadding: 20px;\n",
      "\t\t\t\x7d\n",
      "\t\t\t.date \x7b\n",
      "\t\t\t\tcolor: #666;\n",
      "\t\t\t\tfont-size: 0.9em;\n",
      "\t\t\t\tmargin-bottom: 20px;\n",
      "\t\t\t\x7d\n",
      "\t\t\t.back-link \x7b\n",
      "\t\t\t\tdisplay: block;\n",
      "\t\t\t\tmargin-bottom: 20px;\n",
      "\t\t\t\x7d\n",
      "\t\t</style>\n",
      "\t</head>\n",
      "\t<body>\n",
      "\t\t<div class=\"container\">\n",
      "\t\t\t"])
    (b := String.join ["\n", "\t\t\t<h1>"] ++ htmlEscaper post.Title
      ++ postBeforeDate ++ htmlEscaper post.Date
      ++ postBeforeText ++ htmlEscaper post.Text ++ postTail)
  apply String.ext
  simp [postPage, postStyle, String.join, String.data_append]

theorem infix_mid (a m b : String) : m.data <:+: (a ++ m ++ b).data :=
  infix_of_eq rfl

theorem blogListCard_congr (x y : BlogPost) (h : cardKey x = cardKey y) :
    blogListCard x = blogListCard y := by
  simp only [cardKey, Prod.mk.injEq] at h
  obtain ⟨hs, ht, hd⟩ := h
  simp [blogListCard, hs, ht, hd]

theorem blogListCards_congr (l₁ l₂ : List BlogPost) (h : l₁.map cardKey = l₂.map cardKey) :
    l₁.map blogListCard = l₂.map blogListCard := by
  induction l₁ generalizing l₂ with
  | nil =>
    cases l₂ with
    | nil => rfl
    | cons y l₂ => simp at h
  | cons x l₁ ih =>
    cases l₂ with
    | nil => simp at h
    | cons y l₂ =>
      simp only [List.map_cons, List.cons.injEq] at h ⊢
      exact ⟨blogListCard_congr x y h.1, ih l₂ h.2⟩

theorem blogListItems_congr (l₁ l₂ : List BlogPost)
    (hflags : List.Forall₂ (fun x y => x.IsPublished = y.IsPublished) l₁ l₂)
    (hkeys : (l₁.filter (·.IsPublished)).map cardKey
      = (l₂.filter (·.IsPublished)).map cardKey) :
    l₁.map blogListItem = l₂.map blogListItem := by
  induction hflags with
  | nil => rfl
  | @cons x y l₁ l₂ hxy _ ih =>
    cases hx : x.IsPublished with
    | false =>
      have hy : y.IsPublished = false := by rw [← hxy, hx]
      simp only [List.filter_cons, hx, hy] at hkeys
      simp only [List.map_cons, List.cons.injEq]
      exact ⟨by simp [blogListItem, hx, hy], ih (by simpa using hkeys)⟩
    | true =>
      have hy : y.IsPublished = true := by rw [← hxy, hx]
      simp only [List.filter_cons, hx, hy, if_true, List.map_cons, List.cons.injEq] at hkeys
      simp only [List.map_cons, List.cons.injEq]
      exact ⟨by simp [blogListItem, hx, hy, blogListCard_congr x y hkeys.1], ih hkeys.2⟩

/-! ## Counting the links of the list view -/

theorem isPrefixOf_append_of_le (pat l y : List Char) (h : pat.length ≤ l.length) :
    pat.isPrefixOf (l ++ y) = pat.isPrefixOf l := by
  induction pat generalizing l with
  | nil => simp
  | cons a pat ih =>
    cases l with
    | nil => simp at h
    | cons b l =>
      simp only [List.cons_append, List.isPrefixOf_cons₂]
      rw [ih l (by simpa using h)]

theorem occurrences_nil (p : List Char) : occurrences ('<' :: p) [] = 0 := by
  simp [occurrences]

theorem occurrences_skip (p x y : List Char) (hx : noTagOpen x = true) :
    occurrences ('<' :: p) (x ++ y) = occurrences ('<' :: p) y := by
  induction x with
  | nil => rfl
  | cons c x ih =>
    simp only [noTagOpen, List.all_cons, Bool.and_eq_true, bne_iff_ne, ne_eq] at hx
    have hc : ('<' == c) = false := by
      simp only [beq_eq_false_iff_ne, ne_eq]
      exact fun h => hx.1 h.symm
    simp only [List.cons_append, occurrences, List.isPrefixOf_cons₂, hc, Bool.false_and]
    simpa using ih (by simpa [noTagOpen] using hx.2)

theorem occurrences_none (p x : List Char) (hx : noTagOpen x = true) :
    occurrences ('<' :: p) x = 0 := by
  have h := occurrences_skip p x [] hx
  rwa [List.append_nil, occurrences_nil] at h

theorem occurrences_split (p x₁ x₂ y : List Char) (hx : noTagOpen x₂ = true)
    (hlen : p.length ≤ x₂.length) :
    occurrences ('<' :: p) (x₁ ++ x₂ ++ y)
      = occurrences ('<' :: p) (x₁ ++ x₂) + occurrences ('<' :: p) y := by
  induction x₁ with
  | nil =>
    simp only [List.nil_append]
    rw [occurrences_skip p x₂ y hx, occurrences_none p x₂ hx, Nat.zero_add]
  | cons c x₁ ih =>
    have hpre : ('<' :: p).isPrefixOf (c :: (x₁ ++ x₂) ++ y)
        = ('<' :: p).isPrefixOf (c :: (x₁ ++ x₂)) := by
      apply isPrefixOf_append_of_le
      simp only [List.length_cons, List.length_append]
      omega
    have e1 : c :: x₁ ++ x₂ ++ y = c :: (x₁ ++ x₂ ++ y) := rfl
    have e2 : c :: x₁ ++ x₂ = c :: (x₁ ++ x₂) := rfl
    have e3 : c :: (x₁ ++ x₂ ++ y) = (c :: (x₁ ++ x₂)) ++ y := rfl
    rw [e1, e2, occurrences, occurrences, ih, e3, hpre]
    omega

theorem occurrences_chunk (p x y : List Char)
    (hx : noTagOpen (x.drop (x.length - p.length)) = true) (hlen : p.length ≤ x.length) :
    occurrences ('<' :: p) (x ++ y)
      = occurrences ('<' :: p) x + occurrences ('<' :: p) y := by
  have h := occurrences_split p (x.take (x.length - p.length)) (x.drop (x.length - p.length)) y
    hx (by rw [List.length_drop]; omega)
  rwa [List.take_append_drop] at h

theorem noTagOpen_table (n : Nat) : noTagOpen (htmlReplacementTable n).data = true := by
  unfold htmlReplacementTable
  split_ifs <;> decide

theorem noTagOpen_htmlReplaceRune (c : Char) : noTagOpen (htmlReplaceRune c) = true := by
  unfold htmlReplaceRune
  split_ifs with h1 h2
  · exact noTagOpen_table _
  · have hc : c ≠ '<' := by
      intro hc
      subst hc
      exact h2 (by decide)
    simp [noTagOpen, hc]
  · have hc : c ≠ '<' := by
      intro hc
      subst hc
      exact h1 (by decide)
    simp [noTagOpen, hc]

theorem noTagOpen_append (x y : List Char) (hx : noTagOpen x = true) (hy : noTagOpen y = true) :
    noTagOpen (x ++ y) = true := by
  simp only [noTagOpen, List.all_append, Bool.and_eq_true] at *
  exact ⟨hx, hy⟩

theorem noTagOpen_htmlReplacer (s : String) : noTagOpen (htmlReplacer s).data = true := by
  simp only [htmlReplacer]
  generalize s.data = l
  induction l with
  | nil => rfl
  | cons c l ih =>
    rw [List.flatMap_cons]
    exact noTagOpen_append _ _ (noTagOpen_htmlReplaceRune c) ih

theorem blogListCard_data (post : BlogPost) :
    (blogListCard post).data
      = "\n\t\t\t<a href=\"/blog/".data
        ++ ((attrEscaper (urlNormalizer post.Slug)).data
        ++ ("\">\n\t\t\t\t<div class=\"card\">\n\t\t\t\t\t<h2>".data
        ++ ((htmlEscaper post.Title).data
        ++ ("</h2>\n\t\t\t\t\t<div class=\"date\">".data
        ++ ((htmlEscaper post.Date).data
        ++ "</div>\n\t\t\t\t</div>\n\t\t\t</a>\n\t\t\t".data))))) := by
  simp [blogListCard, String.join, String.data_append]

theorem noTagOpen_htmlEscaper (s : String) : noTagOpen (htmlEscaper s).data = true :=
  noTagOpen_htmlReplacer s

theorem noTagOpen_attrEscaper (s : String) : noTagOpen (attrEscaper s).data = true :=
  noTagOpen_htmlReplacer s

/-- Each card holds one link: counted before any continuation, the card adds
one occurrence of `<a `. -/
theorem occurrences_card (post : BlogPost) (rest : List Char) :
    occurrences ['<', 'a', ' '] ((blogListCard post).data ++ rest)
      = 1 + occurrences ['<', 'a', ' '] rest := by
  rw [blogListCard_data]
  simp only [List.append_assoc]
  rw [occurrences_chunk _ _ _ (by decide!) (by decide!),
    occurrences_skip _ _ _ (noTagOpen_attrEscaper _),
    occurrences_chunk _ _ _ (by decide!) (by decide!),
    occurrences_skip _ _ _ (noTagOpen_htmlEscaper _),
    occurrences_chunk _ _ _ (by decide!) (by decide!),
    occurrences_skip _ _ _ (noTagOpen_htmlEscaper _),
    occurrences_chunk _ _ _ (by decide!) (by decide!)]
  have h1 : occurrences ['<', 'a', ' '] "\n\t\t\t<a href=\"/blog/".data = 1 := by decide!
  have h2 : occurrences ['<', 'a', ' ']
      "\">\n\t\t\t\t<div class=\"card\">\n\t\t\t\t\t<h2>".data = 0 := by decide!
  have h3 : occurrences ['<', 'a', ' ']
      "</h2>\n\t\t\t\t\t<div class=\"date\">".data = 0 := by decide!
  have h4 : occurrences ['<', 'a', ' ']
      "</div>\n\t\t\t\t</div>\n\t\t\t</a>\n\t\t\t".data = 0 := by decide!
  rw [h1, h2, h3, h4]
  omega

theorem occurrences_items (posts : List BlogPost) (rest : List Char) :
    occurrences ['<', 'a', ' '] ((String.join (posts.map blogListItem)).data ++ rest)
      = (posts.filter (·.IsPublished)).length + occurrences ['<', 'a', ' '] rest := by
  induction posts with
  | nil => simp [String.join]
  | cons p ps ih =>
    rw [List.map_cons, join_cons, String.data_append, List.append_assoc]
    cases hp : p.IsPublished with
    | false =>
      have hitem : (blogListItem p).data = "\n\t\t\t\n\t\t".data := by
        simp [blogListItem, hp, blogListRangeOpen, blogListRangeClose, String.data_append]
      rw [hitem, occurrences_skip _ _ _ (by decide), ih]
      simp [hp]
    | true =>
      have hitem : (blogListItem p).data
          = blogListRangeOpen.data ++ ((blogListCard p).data ++ blogListRangeClose.data) := by
        simp [blogListItem, hp, String.data_append]
      rw [hitem, List.append_assoc, occurrences_skip _ _ _ (by decide), List.append_assoc,
        occurrences_card, occurrences_skip _ _ _ (by decide), ih]
      simp [hp]
      omega

theorem occurrences_links (blogData : BlogData) :
    occurrences "<a ".data (renderBlogList blogData).body.data
      = (blogData.Posts.filter (·.IsPublished)).length := by
  show occurrences ['<', 'a', ' '] (blogListPage blogData).data = _
  simp only [blogListPage, String.data_append, List.append_assoc]
  rw [occurrences_chunk _ _ _ (by decide!) (by decide!), occurrences_items]
  have h1 : occurrences ['<', 'a', ' '] blogListHead.data = 0 := by decide!
  have h2 : occurrences ['<', 'a', ' '] blogListTail.data = 0 := by decide!
  rw [h1, h2]
  omega

/-! ## Lemmas on the control flow of `handleBlog` -/

/-- With the store loaded, a suffix that is neither empty nor `"blog"` sends
`handleBlog` into the loop over the posts. -/
theorem handleBlogCall_slug (data : List UInt8) (unmarshal : List UInt8 → Option BlogData)
    (blogData : BlogData) (urlPath s : String) (hload : unmarshal data = some blogData)
    (hs : TrimPrefix urlPath "/blog/" = s) (hne : s ≠ "") (hnb : s ≠ "blog") :
    handleBlogCall (some data) unmarshal urlPath =
      match findPost s blogData.Posts with
      | some post => .renderPost post
      | none => .notFound := by
  simp [handleBlogCall, hload, hs, hne, hnb]

/-- With the store loaded, an empty suffix or the suffix `"blog"` sends
`handleBlog` to the list view. -/
theorem handleBlogCall_list (data : List UInt8) (unmarshal : List UInt8 → Option BlogData)
    (blogData : BlogData) (urlPath : String) (hload : unmarshal data = some blogData)
    (hs : TrimPrefix urlPath "/blog/" = "" ∨ TrimPrefix urlPath "/blog/" = "blog") :
    handleBlogCall (some data) unmarshal urlPath = .renderBlogList blogData := by
  rcases hs with hs | hs <;> simp [handleBlogCall, hload, hs]

theorem findPost_none_iff (path : String) (posts : List BlogPost) :
    findPost path posts = none ↔
      ¬ ∃ post ∈ posts, post.IsPublished = true ∧ post.Slug = path := by
  induction posts with
  | nil => simp [findPost]
  | cons post rest ih =>
    by_cases h : post.Slug = path <;> cases hp : post.IsPublished <;>
      simp [findPost, h, hp, ih]

/-- The loop returns the first post that matches: a matching post with no
matching post before it. -/
theorem findPost_first (path : String) (pre : List BlogPost) (p : BlogPost)
    (rest : List BlogPost) (hslug : p.Slug = path) (hpub : p.IsPublished = true)
    (hfirst : ∀ q ∈ pre, ¬ (q.Slug = path ∧ q.IsPublished = true)) :
    findPost path (pre ++ p :: rest) = some p := by
  induction pre with
  | nil => simp [findPost, hslug, hpub]
  | cons q pre ih =>
    have hq : ¬ (q.Slug = path ∧ q.IsPublished = true) := hfirst q (by simp)
    have hrest : ∀ r ∈ pre, ¬ (r.Slug = path ∧ r.IsPublished = true) :=
      fun r hr => hfirst r (by simp [hr])
    have hcond : (q.Slug == path && q.IsPublished) = false := by
      by_cases h : q.Slug = path <;> cases hp : q.IsPublished <;> simp_all
    simp [findPost, hcond, ih hrest]

/-! ## Claims -/

/-- C4: with the store loaded, for every path suffix `s` that is neither empty
nor `"blog"`, the response of `handleBlog` is the one of the reference
selector (the detail view of the first post, in sequence order, whose slug is
`s` and which is published; `NotFound` when there is none), and the response
is the 404 one exactly when no post of the store is both published and has
slug `s`. -/
theorem handleBlog_refines_selector (data : List UInt8)
    (unmarshal : List UInt8 → Option BlogData) (blogData : BlogData) (urlPath s : String)
    (hload : unmarshal data = some blogData) (hs : TrimPrefix urlPath "/blog/" = s)
    (hne : s ≠ "") (hnb : s ≠ "blog") :
    handleBlog (some data) unmarshal urlPath = detailOrNotFoundSpec s blogData.Posts ∧
    ((handleBlog (some data) unmarshal urlPath).status = StatusNotFound ↔
      ¬ ∃ post ∈ blogData.Posts, post.IsPublished = true ∧ post.Slug = s) ∧
    (handleBlog (some data) unmarshal urlPath = httpNotFound ↔
      ¬ ∃ post ∈ blogData.Posts, post.IsPublished = true ∧ post.Slug = s) := by
  have hcall := handleBlogCall_slug data unmarshal blogData urlPath s hload hs hne hnb
  have hiff := findPost_none_iff s blogData.Posts
  unfold handleBlog detailOrNotFoundSpec
  rw [hcall, ← findPost_eq_find]
  cases hf : findPost s blogData.Posts with
  | none =>
    rw [hf] at hiff
    have hno := hiff.mp rfl
    exact ⟨rfl, ⟨fun _ => hno, fun _ => rfl⟩, ⟨fun _ => hno, fun _ => rfl⟩⟩
  | some post =>
    rw [hf] at hiff
    have hex : ¬ ¬ ∃ post ∈ blogData.Posts, post.IsPublished = true ∧ post.Slug = s :=
      fun hno => by simpa using hiff.mpr hno
    refine ⟨rfl, ⟨fun h => ?_, fun h => absurd h hex⟩, ⟨fun h => ?_, fun h => absurd h hex⟩⟩
    · have hst : StatusOK = StatusNotFound := h
      exact absurd hst (by decide)
    · have hst : StatusOK = StatusNotFound := congrArg Response.status h
      exact absurd hst (by decide)

/-- C4, at the scenario store and the path `/blog/hi`. -/
theorem handleBlog_refines_selector_witness :
    handleBlog (some []) (unmarshalTo scenarioStore) "/blog/hi"
        = detailOrNotFoundSpec "hi" scenarioStore.Posts ∧
    ((handleBlog (some []) (unmarshalTo scenarioStore) "/blog/hi").status = StatusNotFound ↔
      ¬ ∃ post ∈ scenarioStore.Posts, post.IsPublished = true ∧ post.Slug = "hi") ∧
    (handleBlog (some []) (unmarshalTo scenarioStore) "/blog/hi" = httpNotFound ↔
      ¬ ∃ post ∈ scenarioStore.Posts, post.IsPublished = true ∧ post.Slug = "hi") :=
  handleBlog_refines_selector [] (unmarshalTo scenarioStore) scenarioStore "/blog/hi" "hi"
    rfl (by decide) (by decide) (by decide)

/-- C5: when the data file cannot be read, or is read and fails to parse,
`handleBlog` ends, for every request path, with an `http.Error` call of status
500 carrying a fixed message; it calls neither `renderPost` nor
`renderBlogList`, and the response is the same for all request paths. -/
theorem handleBlog_load_failure (file : Option (List UInt8))
    (unmarshal : List UInt8 → Option BlogData)
    (hfail : file = none ∨ ∃ data, file = some data ∧ unmarshal data = none)
    (urlPath : String) :
    (handleBlog file unmarshal urlPath).status = StatusInternalServerError ∧
    (handleBlogCall file unmarshal urlPath
        = .error "Error reading blog posts" StatusInternalServerError ∨
      handleBlogCall file unmarshal urlPath
        = .error "Error parsing blog posts" StatusInternalServerError) ∧
    (∀ post, handleBlogCall file unmarshal urlPath ≠ .renderPost post) ∧
    (∀ blogData, handleBlogCall file unmarshal urlPath ≠ .renderBlogList blogData) ∧
    (∀ otherPath, handleBlog file unmarshal otherPath = handleBlog file unmarshal urlPath) := by
  rcases hfail with hnone | ⟨data, hsome, hparse⟩
  · subst hnone
    refine ⟨rfl, Or.inl rfl, ?_, ?_, fun _ => rfl⟩
    · intro post h
      simp [handleBlogCall] at h
    · intro blogData h
      simp [handleBlogCall] at h
  · subst hsome
    have hcall : ∀ path, handleBlogCall (some data) unmarshal path
        = .error "Error parsing blog posts" StatusInternalServerError := by
      intro path
      simp [handleBlogCall, hparse]
    refine ⟨?_, Or.inr (hcall urlPath), ?_, ?_, ?_⟩
    · simp [handleBlog, hcall, Call.run, httpError]
    · intro post h
      rw [hcall] at h
      cases h
    · intro blogData h
      rw [hcall] at h
      cases h
    · intro otherPath
      simp [handleBlog, hcall]

/-- C5, at a data file that is read and does not parse, and the path of a
post. -/
theorem handleBlog_load_failure_witness :
    (handleBlog (some [123]) (fun _ => none) "/blog/hi").status = StatusInternalServerError ∧
    (handleBlogCall (some [123]) (fun _ => none) "/blog/hi"
        = .error "Error reading blog posts" StatusInternalServerError ∨
      handleBlogCall (some [123]) (fun _ => none) "/blog/hi"
        = .error "Error parsing blog posts" StatusInternalServerError) ∧
    (∀ post, handleBlogCall (some [123]) (fun _ => none) "/blog/hi" ≠ .renderPost post) ∧
    (∀ blogData,
      handleBlogCall (some [123]) (fun _ => none) "/blog/hi" ≠ .renderBlogList blogData) ∧
    (∀ otherPath, handleBlog (some [123]) (fun _ => none) otherPath
      = handleBlog (some [123]) (fun _ => none) "/blog/hi") :=
  handleBlog_load_failure (some [123]) (fun _ => none) (Or.inr ⟨[123], rfl, rfl⟩) "/blog/hi"

/-- C9: with the store loaded, the request paths `/blog/` (empty suffix) and
`/blog/blog` (suffix `blog`), and every path whose suffix is one of the two,
make `handleBlog` end with `renderBlogList` on the whole store, whatever the
posts are: the loop over the posts is not entered. -/
theorem handleBlog_list_paths (data : List UInt8) (unmarshal : List UInt8 → Option BlogData)
    (blogData : BlogData) (hload : unmarshal data = some blogData) :
    handleBlogCall (some data) unmarshal "/blog/" = .renderBlogList blogData ∧
    handleBlogCall (some data) unmarshal "/blog/blog" = .renderBlogList blogData ∧
    (∀ urlPath, TrimPrefix urlPath "/blog/" = "" ∨ TrimPrefix urlPath "/blog/" = "blog" →
      handleBlogCall (some data) unmarshal urlPath = .renderBlogList blogData ∧
      handleBlog (some data) unmarshal urlPath = renderBlogList blogData) := by
  refine ⟨?_, ?_, ?_⟩
  · exact handleBlogCall_list data unmarshal blogData "/blog/" hload (Or.inl (by decide))
  · exact handleBlogCall_list data unmarshal blogData "/blog/blog" hload (Or.inr (by decide))
  · intro urlPath hs
    have hcall := handleBlogCall_list data unmarshal blogData urlPath hload hs
    exact ⟨hcall, by simp [handleBlog, hcall, Call.run]⟩

/-- C9, at a store that holds a published post with slug `blog` and one with
the empty slug. -/
theorem handleBlog_list_paths_witness :
    handleBlogCall (some []) (unmarshalTo ⟨[postNamedBlog, postNoSlug]⟩) "/blog/"
      = .renderBlogList ⟨[postNamedBlog, postNoSlug]⟩ ∧
    handleBlogCall (some []) (unmarshalTo ⟨[postNamedBlog, postNoSlug]⟩) "/blog/blog"
      = .renderBlogList ⟨[postNamedBlog, postNoSlug]⟩ ∧
    (∀ urlPath, TrimPrefix urlPath "/blog/" = "" ∨ TrimPrefix urlPath "/blog/" = "blog" →
      handleBlogCall (some []) (unmarshalTo ⟨[postNamedBlog, postNoSlug]⟩) urlPath
        = .renderBlogList ⟨[postNamedBlog, postNoSlug]⟩ ∧
      handleBlog (some []) (unmarshalTo ⟨[postNamedBlog, postNoSlug]⟩) urlPath
        = renderBlogList ⟨[postNamedBlog, postNoSlug]⟩) :=
  handleBlog_list_paths [] (unmarshalTo ⟨[postNamedBlog, postNoSlug]⟩)
    ⟨[postNamedBlog, postNoSlug]⟩ rfl

/-- C6, refuted as stated: at the scenario store, `handleBlog` with
`r.URL.Path = "/blog/"` ends with `renderBlogList`, while with
`r.URL.Path = "/blog"` the prefix `/blog/` is not there to trim, the suffix
stays `/blog`, which is neither empty nor `blog`, the loop finds no post with
that slug and the response is the 404 one: the two responses differ. -/
theorem handleBlog_bare_path :
    TrimPrefix "/blog" "/blog/" = "/blog" ∧
    handleBlogCall (some []) (unmarshalTo scenarioStore) "/blog/"
      = .renderBlogList scenarioStore ∧
    handleBlogCall (some []) (unmarshalTo scenarioStore) "/blog" = .notFound ∧
    handleBlog (some []) (unmarshalTo scenarioStore) "/blog" = httpNotFound ∧
    handleBlog (some []) (unmarshalTo scenarioStore) "/blog"
      ≠ handleBlog (some []) (unmarshalTo scenarioStore) "/blog/" := by
  refine ⟨by decide, by decide, by decide, by decide, ?_⟩
  intro h
  have hst := congrArg Response.status h
  exact absurd hst (by decide)

/-- C6, amended: with the store loaded, the path `/blog/` is routed by the mux
of `main` to `handleBlog`, which ends with the list view; the bare path
`/blog` is not handed to `handleBlog`: the mux, on which `handleBlog` is
registered under `/blog/` only, answers it with a redirect to `/blog/`.
`handleBlog` itself, at the path `/blog`, trims nothing and looks the whole
path up as a slug: the detail view of the first published post whose slug is
`/blog`, the 404 response when there is none. -/
theorem handleBlog_bare_path_routed (data : List UInt8)
    (unmarshal : List UInt8 → Option BlogData) (blogData : BlogData)
    (hload : unmarshal data = some blogData) :
    muxHandler "/blog/" = .serve .blog ∧
    handleBlog (some data) unmarshal "/blog/" = renderBlogList blogData ∧
    muxHandler "/blog" = .redirect "/blog/" ∧
    handleBlogCall (some data) unmarshal "/blog" =
      (match findPost "/blog" blogData.Posts with
        | some post => .renderPost post
        | none => .notFound) := by
  refine ⟨by decide!, ?_, by decide!, ?_⟩
  · have hcall := handleBlogCall_list data unmarshal blogData "/blog/" hload
      (Or.inl (by decide))
    simp [handleBlog, hcall, Call.run]
  · exact handleBlogCall_slug data unmarshal blogData "/blog" "/blog" hload
      (by decide) (by decide) (by decide)

/-- C6, amended, at the scenario store. -/
theorem handleBlog_bare_path_routed_witness :
    muxHandler "/blog/" = .serve .blog ∧
    handleBlog (some []) (unmarshalTo scenarioStore) "/blog/" = renderBlogList scenarioStore ∧
    muxHandler "/blog" = .redirect "/blog/" ∧
    handleBlogCall (some []) (unmarshalTo scenarioStore) "/blog" =
      (match findPost "/blog" scenarioStore.Posts with
        | some post => .renderPost post
        | none => .notFound) :=
  handleBlog_bare_path_routed [] (unmarshalTo scenarioStore) scenarioStore rfl

/-- C1, refuted as stated: the card of a published post whose slug is `a b`
links to `/blog/a%20b`, and the list view holds `/blog/a b` nowhere; likewise
the card of the slug `café` links to `/blog/caf%c3%a9`. -/
theorem renderBlogList_link_counterexample :
    (postSpaced.IsPublished = true ∧
      ¬ ("/blog/" ++ postSpaced.Slug).data
        <:+: (renderBlogList ⟨[postSpaced]⟩).body.data ∧
      "<a href=\"/blog/a%20b\">".data <:+: (renderBlogList ⟨[postSpaced]⟩).body.data) ∧
    (postAccent.IsPublished = true ∧
      ¬ ("/blog/" ++ postAccent.Slug).data
        <:+: (renderBlogList ⟨[postAccent]⟩).body.data ∧
      "<a href=\"/blog/caf%c3%a9\">".data
        <:+: (renderBlogList ⟨[postAccent]⟩).body.data) := by
  refine ⟨⟨by decide, by decide!, by decide!⟩, ⟨by decide, by decide!, by decide!⟩⟩

/-- C1, amended: the list view has status 200 and its body is the head of the
template, then the cards of the published posts of the store, in the order of
the store, one card per published post and nothing for an unpublished one,
separated by runs of newlines and tabs, then the tail of the template; the
card of a post holds the link `<a href="/blog/` slug `">` (the slug as the
URL escapers of the template write it, which is the slug itself when it is
made of unreserved characters), the title and the date; and the body holds
as many link tags `<a ` as the store has published posts. -/
theorem renderBlogList_cards (blogData : BlogData) :
    (renderBlogList blogData).status = StatusOK ∧
    (∃ gaps : List String,
      gaps.length = (blogData.Posts.filter (·.IsPublished)).length + 1 ∧
      (∀ g ∈ gaps, isBlank g = true) ∧
      (renderBlogList blogData).body
        = blogListHead
            ++ weave gaps ((blogData.Posts.filter (·.IsPublished)).map blogListCard)
            ++ blogListTail) ∧
    (∀ post : BlogPost,
      ("<a href=\"/blog/" ++ attrEscaper (urlNormalizer post.Slug) ++ "\">").data
        <:+: (blogListCard post).data ∧
      ("<h2>" ++ htmlEscaper post.Title ++ "</h2>").data <:+: (blogListCard post).data ∧
      ("<div class=\"date\">" ++ htmlEscaper post.Date ++ "</div>").data
        <:+: (blogListCard post).data ∧
      (post.Slug.data.all urlUnreserved = true →
        ("<a href=\"/blog/" ++ post.Slug ++ "\">").data <:+: (blogListCard post).data)) ∧
    occurrences "<a ".data (renderBlogList blogData).body.data
      = (blogData.Posts.filter (·.IsPublished)).length := by
  refine ⟨rfl, ?_, ?_, occurrences_links blogData⟩
  · obtain ⟨gaps, hlen, hblank, hjoin⟩ := blogListItems_weave blogData.Posts
    exact ⟨gaps, hlen, hblank, by simp [renderBlogList, blogListPage, hjoin]⟩
  · intro post
    refine ⟨blogListCard_link post, blogListCard_title post, blogListCard_date post, ?_⟩
    intro hsafe
    have h := blogListCard_link post
    rwa [slug_unreserved post.Slug hsafe] at h

/-- C1, amended, at the scenario store. -/
theorem renderBlogList_cards_witness :
    (renderBlogList scenarioStore).status = StatusOK ∧
    (∃ gaps : List String,
      gaps.length = (scenarioStore.Posts.filter (·.IsPublished)).length + 1 ∧
      (∀ g ∈ gaps, isBlank g = true) ∧
      (renderBlogList scenarioStore).body
        = blogListHead
            ++ weave gaps ((scenarioStore.Posts.filter (·.IsPublished)).map blogListCard)
            ++ blogListTail) ∧
    (∀ post : BlogPost,
      ("<a href=\"/blog/" ++ attrEscaper (urlNormalizer post.Slug) ++ "\">").data
        <:+: (blogListCard post).data ∧
      ("<h2>" ++ htmlEscaper post.Title ++ "</h2>").data <:+: (blogListCard post).data ∧
      ("<div class=\"date\">" ++ htmlEscaper post.Date ++ "</div>").data
        <:+: (blogListCard post).data ∧
      (post.Slug.data.all urlUnreserved = true →
        ("<a href=\"/blog/" ++ post.Slug ++ "\">").data <:+: (blogListCard post).data)) ∧
    occurrences "<a ".data (renderBlogList scenarioStore).body.data
      = (scenarioStore.Posts.filter (·.IsPublished)).length :=
  renderBlogList_cards scenarioStore

/-- C7: at the scenario store, `/blog/` gives the list view, whose body holds
one card, the one of "Hi", and nothing of "Draft"; `/blog/hi` gives the 200
detail view of "Hi", whose body holds "Hello"; `/blog/draft` and
`/blog/missing` give the 404 response. -/
theorem handleBlog_scenario :
    handleBlog (some []) (unmarshalTo scenarioStore) "/blog/" = renderBlogList scenarioStore ∧
    (renderBlogList scenarioStore).status = 200 ∧
    occurrences "<div class=\"card\">".data (renderBlogList scenarioStore).body.data = 1 ∧
    occurrences "<a ".data (renderBlogList scenarioStore).body.data = 1 ∧
    "<a href=\"/blog/hi\">".data <:+: (renderBlogList scenarioStore).body.data ∧
    "<h2>Hi</h2>".data <:+: (renderBlogList scenarioStore).body.data ∧
    ¬ "Draft".data <:+: (renderBlogList scenarioStore).body.data ∧
    ¬ "draft".data <:+: (renderBlogList scenarioStore).body.data ∧
    handleBlog (some []) (unmarshalTo scenarioStore) "/blog/hi" = renderPost postHi ∧
    (renderPost postHi).status = 200 ∧
    "Hello".data <:+: (renderPost postHi).body.data ∧
    handleBlog (some []) (unmarshalTo scenarioStore) "/blog/draft" = httpNotFound ∧
    handleBlog (some []) (unmarshalTo scenarioStore) "/blog/missing" = httpNotFound ∧
    httpNotFound.status = 404 := by
  refine ⟨by decide!, by decide!, by decide!, by decide!, by decide!, by decide!, by decide!,
    by decide!, by decide!, by decide!, by decide!, by decide!, by decide!, by decide!⟩

/-- C8, refuted as stated: for the post `postMarkup`, whose title is `a<b`,
whose date is `1 & 2` and whose text is `<b>bold</b>`, the document of
`renderPost` holds none of the three strings; it holds `a&lt;b`, `1 &amp; 2`
and `&lt;b&gt;bold&lt;/b&gt;`. -/
theorem renderPost_raw_counterexample :
    ¬ postMarkup.Title.data <:+: (renderPost postMarkup).body.data ∧
    ¬ postMarkup.Date.data <:+: (renderPost postMarkup).body.data ∧
    ¬ postMarkup.Text.data <:+: (renderPost postMarkup).body.data ∧
    "<h1>a&lt;b</h1>".data <:+: (renderPost postMarkup).body.data ∧
    "1 &amp; 2".data <:+: (renderPost postMarkup).body.data ∧
    "&lt;b&gt;bold&lt;/b&gt;".data <:+: (renderPost postMarkup).body.data := by
  refine ⟨by decide!, by decide!, by decide!, by decide!, by decide!, by decide!⟩

/-- C8, amended: for every post, the document of `renderPost` holds the
title, the date and the text as `htmlReplacer` writes them (NUL replaced by
U+FFFD and each of the characters double quote, ampersand, apostrophe, plus,
less-than and greater-than by its character reference), hence verbatim when
they hold none of these characters, and it holds the link to `/blog`. -/
theorem renderPost_escaped (post : BlogPost) :
    (renderPost post).status = StatusOK ∧
    ("<title>" ++ htmlReplacer post.Title ++ "</title>").data
      <:+: (renderPost post).body.data ∧
    ("<h1>" ++ htmlReplacer post.Title ++ "</h1>").data <:+: (renderPost post).body.data ∧
    ("<div class=\"date\">" ++ htmlReplacer post.Date ++ "</div>").data
      <:+: (renderPost post).body.data ∧
    ("<div class=\"content\">\n\t\t\t\t" ++ htmlReplacer post.Text ++ "\n\t\t\t</div>").data
      <:+: (renderPost post).body.data ∧
    "<a href=\"/blog\" class=\"back-link\">← Back to all posts</a>".data
      <:+: (renderPost post).body.data ∧
    (post.Title.data.all htmlPlain = true →
      post.Title.data <:+: (renderPost post).body.data) ∧
    (post.Date.data.all htmlPlain = true →
      post.Date.data <:+: (renderPost post).body.data) ∧
    (post.Text.data.all htmlPlain = true →
      post.Text.data <:+: (renderPost post).body.data) := by
  refine ⟨rfl, postPage_head_title post, postPage_title post, postPage_date post,
    postPage_text post, postPage_back_link post, ?_, ?_, ?_⟩
  · intro h
    have hin := (infix_mid "<h1>" (htmlEscaper post.Title) "</h1>").trans (postPage_title post)
    rwa [htmlEscaper, htmlReplacer_plain _ h] at hin
  · intro h
    have hin := (infix_mid "<div class=\"date\">" (htmlEscaper post.Date) "</div>").trans
      (postPage_date post)
    rwa [htmlEscaper, htmlReplacer_plain _ h] at hin
  · intro h
    have hin := (infix_mid "<div class=\"content\">\n\t\t\t\t" (htmlEscaper post.Text)
      "\n\t\t\t</div>").trans (postPage_text post)
    rwa [htmlEscaper, htmlReplacer_plain _ h] at hin

/-- C2, refuted as stated: a published post whose slug is `blog` is answered
with the list view, which does not hold its text; and of two published posts
with the same slug the second is answered with the detail view of the first,
which does not hold the text of the second. -/
theorem handleBlog_published_counterexample :
    (postNamedBlog ∈ [postNamedBlog] ∧ postNamedBlog.IsPublished = true ∧
      handleBlog (some []) (unmarshalTo ⟨[postNamedBlog]⟩) ("/blog/" ++ postNamedBlog.Slug)
        = renderBlogList ⟨[postNamedBlog]⟩ ∧
      renderBlogList ⟨[postNamedBlog]⟩ ≠ renderPost postNamedBlog ∧
      ¬ postNamedBlog.Text.data <:+:
        (handleBlog (some []) (unmarshalTo ⟨[postNamedBlog]⟩)
          ("/blog/" ++ postNamedBlog.Slug)).body.data) ∧
    (postDupSecond ∈ [postDupFirst, postDupSecond] ∧ postDupSecond.IsPublished = true ∧
      handleBlog (some []) (unmarshalTo ⟨[postDupFirst, postDupSecond]⟩)
          ("/blog/" ++ postDupSecond.Slug)
        = renderPost postDupFirst ∧
      renderPost postDupFirst ≠ renderPost postDupSecond ∧
      ¬ postDupSecond.Text.data <:+:
        (handleBlog (some []) (unmarshalTo ⟨[postDupFirst, postDupSecond]⟩)
          ("/blog/" ++ postDupSecond.Slug)).body.data) := by
  refine ⟨⟨by decide, by decide, by decide!, by decide!, by decide!⟩,
    ⟨by decide, by decide, by decide!, by decide!, by decide!⟩⟩

/-- C2, amended: with the store loaded, for every published post `p` of the
store whose slug is neither empty nor `blog` and before which the store holds
no published post with the same slug, `handleBlog` at `/blog/` followed by the
slug returns the 200 detail view `renderPost` makes of `p`, whose body holds
the title, the date and the text of `p` as the template escapes them. -/
theorem handleBlog_published (data : List UInt8) (unmarshal : List UInt8 → Option BlogData)
    (blogData : BlogData) (pre : List BlogPost) (p : BlogPost) (rest : List BlogPost)
    (hload : unmarshal data = some blogData) (hposts : blogData.Posts = pre ++ p :: rest)
    (hpub : p.IsPublished = true) (hne : p.Slug ≠ "") (hnb : p.Slug ≠ "blog")
    (hfirst : ∀ q ∈ pre, ¬ (q.Slug = p.Slug ∧ q.IsPublished = true)) :
    handleBlog (some data) unmarshal ("/blog/" ++ p.Slug) = renderPost p ∧
    (handleBlog (some data) unmarshal ("/blog/" ++ p.Slug)).status = StatusOK ∧
    (htmlEscaper p.Title).data
      <:+: (handleBlog (some data) unmarshal ("/blog/" ++ p.Slug)).body.data ∧
    (htmlEscaper p.Date).data
      <:+: (handleBlog (some data) unmarshal ("/blog/" ++ p.Slug)).body.data ∧
    (htmlEscaper p.Text).data
      <:+: (handleBlog (some data) unmarshal ("/blog/" ++ p.Slug)).body.data := by
  have hcall := handleBlogCall_slug data unmarshal blogData ("/blog/" ++ p.Slug) p.Slug hload
    (TrimPrefix_append "/blog/" p.Slug) hne hnb
  rw [hposts, findPost_first p.Slug pre p rest rfl hpub hfirst] at hcall
  have hresp : handleBlog (some data) unmarshal ("/blog/" ++ p.Slug) = renderPost p := by
    simp [handleBlog, hcall, Call.run]
  rw [hresp]
  refine ⟨rfl, rfl, ?_, ?_, ?_⟩
  · exact (infix_mid "<h1>" (htmlEscaper p.Title) "</h1>").trans (postPage_title p)
  · exact (infix_mid "<div class=\"date\">" (htmlEscaper p.Date) "</div>").trans
      (postPage_date p)
  · exact (infix_mid "<div class=\"content\">\n\t\t\t\t" (htmlEscaper p.Text)
      "\n\t\t\t</div>").trans (postPage_text p)

/-- C2, amended, at the second post of a store whose first post is a draft
with the same slug. -/
theorem handleBlog_published_witness :
    handleBlog (some []) (unmarshalTo ⟨[postDupHidden, postDupSecond, postDupFirst]⟩)
        ("/blog/" ++ postDupSecond.Slug) = renderPost postDupSecond ∧
    (handleBlog (some []) (unmarshalTo ⟨[postDupHidden, postDupSecond, postDupFirst]⟩)
        ("/blog/" ++ postDupSecond.Slug)).status = StatusOK ∧
    (htmlEscaper postDupSecond.Title).data
      <:+: (handleBlog (some []) (unmarshalTo ⟨[postDupHidden, postDupSecond, postDupFirst]⟩)
        ("/blog/" ++ postDupSecond.Slug)).body.data ∧
    (htmlEscaper postDupSecond.Date).data
      <:+: (handleBlog (some []) (unmarshalTo ⟨[postDupHidden, postDupSecond, postDupFirst]⟩)
        ("/blog/" ++ postDupSecond.Slug)).body.data ∧
    (htmlEscaper postDupSecond.Text).data
      <:+: (handleBlog (some []) (unmarshalTo ⟨[postDupHidden, postDupSecond, postDupFirst]⟩)
        ("/blog/" ++ postDupSecond.Slug)).body.data :=
  handleBlog_published [] (unmarshalTo ⟨[postDupHidden, postDupSecond, postDupFirst]⟩)
    ⟨[postDupHidden, postDupSecond, postDupFirst]⟩ [postDupHidden] postDupSecond [postDupFirst]
    rfl rfl rfl (by decide) (by decide) (by decide)

/-- C3, refuted as stated: an unpublished post whose slug is `blog` is
answered with the 200 list view, and an unpublished post whose slug a
published post shares is answered with the 200 detail view of that post;
neither response is the 404 one. -/
theorem handleBlog_unpublished_counterexample :
    (postHiddenBlog ∈ [postHiddenBlog] ∧ postHiddenBlog.IsPublished = false ∧
      handleBlog (some []) (unmarshalTo ⟨[postHiddenBlog]⟩) ("/blog/" ++ postHiddenBlog.Slug)
        = renderBlogList ⟨[postHiddenBlog]⟩ ∧
      (handleBlog (some []) (unmarshalTo ⟨[postHiddenBlog]⟩)
        ("/blog/" ++ postHiddenBlog.Slug)).status = 200 ∧
      handleBlog (some []) (unmarshalTo ⟨[postHiddenBlog]⟩) ("/blog/" ++ postHiddenBlog.Slug)
        ≠ httpNotFound) ∧
    (postDupHidden ∈ [postDupHidden, postDupFirst] ∧ postDupHidden.IsPublished = false ∧
      handleBlog (some []) (unmarshalTo ⟨[postDupHidden, postDupFirst]⟩)
          ("/blog/" ++ postDupHidden.Slug)
        = renderPost postDupFirst ∧
      (handleBlog (some []) (unmarshalTo ⟨[postDupHidden, postDupFirst]⟩)
        ("/blog/" ++ postDupHidden.Slug)).status = 200 ∧
      handleBlog (some []) (unmarshalTo ⟨[postDupHidden, postDupFirst]⟩)
          ("/blog/" ++ postDupHidden.Slug)
        ≠ httpNotFound) := by
  refine ⟨⟨by decide, by decide, by decide!, by decide!, by decide!⟩,
    ⟨by decide, by decide, by decide!, by decide!, by decide!⟩⟩

/-- C3, amended: with the store loaded, for every unpublished post `p` of the
store whose slug is neither empty nor `blog` and is the slug of no published
post of the store, `handleBlog` at `/blog/` followed by the slug returns the
404 response of `http.NotFound`, and every slug, neither empty nor `blog`,
that no post of the store has gets the same response, status and body. -/
theorem handleBlog_unpublished (data : List UInt8) (unmarshal : List UInt8 → Option BlogData)
    (blogData : BlogData) (p : BlogPost) (hload : unmarshal data = some blogData)
    (hmem : p ∈ blogData.Posts) (hdraft : p.IsPublished = false)
    (hne : p.Slug ≠ "") (hnb : p.Slug ≠ "blog")
    (hshare : ∀ q ∈ blogData.Posts, q.IsPublished = true → q.Slug ≠ p.Slug) :
    handleBlog (some data) unmarshal ("/blog/" ++ p.Slug) = httpNotFound ∧
    (handleBlog (some data) unmarshal ("/blog/" ++ p.Slug)).status = StatusNotFound ∧
    (handleBlog (some data) unmarshal ("/blog/" ++ p.Slug)).body = "404 page not found\n" ∧
    (∀ missing : String, missing ≠ "" → missing ≠ "blog" →
      (∀ q ∈ blogData.Posts, q.Slug ≠ missing) →
      handleBlog (some data) unmarshal ("/blog/" ++ missing)
        = handleBlog (some data) unmarshal ("/blog/" ++ p.Slug)) := by
  have hnf : ∀ s : String, s ≠ "" → s ≠ "blog" →
      (∀ q ∈ blogData.Posts, q.IsPublished = true → q.Slug ≠ s) →
      handleBlog (some data) unmarshal ("/blog/" ++ s) = httpNotFound := by
    intro s hs1 hs2 hno
    have hcall := handleBlogCall_slug data unmarshal blogData ("/blog/" ++ s) s hload
      (TrimPrefix_append "/blog/" s) hs1 hs2
    have hfind : findPost s blogData.Posts = none := by
      rw [findPost_none_iff]
      rintro ⟨q, hq, hqp, hqs⟩
      exact hno q hq hqp hqs
    rw [hfind] at hcall
    simp [handleBlog, hcall, Call.run]
  have hp := hnf p.Slug hne hnb hshare
  refine ⟨hp, ?_, ?_, ?_⟩
  · rw [hp]; rfl
  · rw [hp]; decide
  · intro missing hm1 hm2 hno
    rw [hp]
    exact hnf missing hm1 hm2 (fun q hq _ => hno q hq)

/-- C3, amended, at the draft of the scenario store. -/
theorem handleBlog_unpublished_witness :
    handleBlog (some []) (unmarshalTo scenarioStore) ("/blog/" ++ postDraft.Slug)
      = httpNotFound ∧
    (handleBlog (some []) (unmarshalTo scenarioStore) ("/blog/" ++ postDraft.Slug)).status
      = StatusNotFound ∧
    (handleBlog (some []) (unmarshalTo scenarioStore) ("/blog/" ++ postDraft.Slug)).body
      = "404 page not found\n" ∧
    (∀ missing : String, missing ≠ "" → missing ≠ "blog" →
      (∀ q ∈ scenarioStore.Posts, q.Slug ≠ missing) →
      handleBlog (some []) (unmarshalTo scenarioStore) ("/blog/" ++ missing)
        = handleBlog (some []) (unmarshalTo scenarioStore) ("/blog/" ++ postDraft.Slug)) :=
  handleBlog_unpublished [] (unmarshalTo scenarioStore) scenarioStore postDraft rfl
    (by decide) rfl (by decide) (by decide) (by decide)

/-- C10, refuted as stated: the stores `[Hi]`, `[Draft, Hi]` and `[Hi, Draft]`
have the same published posts, and `renderBlogList` writes three different
outputs for them: an unpublished post leaves the newlines and tabs of one
iteration of the `range` in the output. -/
theorem renderBlogList_independent_counterexample :
    ([postHi].filter (·.IsPublished)).map cardKey
      = ([postDraft, postHi].filter (·.IsPublished)).map cardKey ∧
    ([postDraft, postHi].filter (·.IsPublished)).map cardKey
      = ([postHi, postDraft].filter (·.IsPublished)).map cardKey ∧
    renderBlogList ⟨[postHi]⟩ ≠ renderBlogList ⟨[postDraft, postHi]⟩ ∧
    renderBlogList ⟨[postDraft, postHi]⟩ ≠ renderBlogList ⟨[postHi, postDraft]⟩ ∧
    (renderBlogList ⟨[postDraft, postHi]⟩).body.length
      = (renderBlogList ⟨[postHi]⟩).body.length + 7 := by
  refine ⟨by decide, by decide, by decide!, by decide!, by decide!⟩

/-- C10, amended: for any two stores whose subsequences of published posts
agree on slug, title and date in order, `renderBlogList` writes the same
cards in the same order between the same head and tail, the two outputs
differing at most in the runs of newlines and tabs around the cards; and it
writes exactly the same output when in addition the two stores have the same
length and the same `IsPublished` flag at every position. The id and text of
every post and all fields of the unpublished posts are not read. -/
theorem renderBlogList_independent (a b : BlogData)
    (hkeys : (a.Posts.filter (·.IsPublished)).map cardKey
      = (b.Posts.filter (·.IsPublished)).map cardKey) :
    (∃ cards gapsA gapsB : List String,
      gapsA.length = cards.length + 1 ∧ gapsB.length = cards.length + 1 ∧
      (∀ g ∈ gapsA, isBlank g = true) ∧ (∀ g ∈ gapsB, isBlank g = true) ∧
      (renderBlogList a).body = blogListHead ++ weave gapsA cards ++ blogListTail ∧
      (renderBlogList b).body = blogListHead ++ weave gapsB cards ++ blogListTail) ∧
    (List.Forall₂ (fun x y => x.IsPublished = y.IsPublished) a.Posts b.Posts →
      renderBlogList a = renderBlogList b) := by
  constructor
  · obtain ⟨gapsA, hlenA, hblankA, hjoinA⟩ := blogListItems_weave a.Posts
    obtain ⟨gapsB, hlenB, hblankB, hjoinB⟩ := blogListItems_weave b.Posts
    have hcards := blogListCards_congr _ _ hkeys
    refine ⟨(a.Posts.filter (·.IsPublished)).map blogListCard, gapsA, gapsB, ?_, ?_,
      hblankA, hblankB, ?_, ?_⟩
    · simpa using hlenA
    · rw [hcards]; simpa using hlenB
    · simp [renderBlogList, blogListPage, hjoinA]
    · rw [hcards]; simp [renderBlogList, blogListPage, hjoinB]
  · intro hflags
    simp [renderBlogList, blogListPage, blogListItems_congr _ _ hflags hkeys]

/-- C10, amended, at two stores that differ in the id and text of the
published post and in every field of the unpublished one. -/
theorem renderBlogList_independent_witness :
    (∃ cards gapsA gapsB : List String,
      gapsA.length = cards.length + 1 ∧ gapsB.length = cards.length + 1 ∧
      (∀ g ∈ gapsA, isBlank g = true) ∧ (∀ g ∈ gapsB, isBlank g = true) ∧
      (renderBlogList ⟨[postHi, postDraft]⟩).body
        = blogListHead ++ weave gapsA cards ++ blogListTail ∧
      (renderBlogList ⟨[postHiCopy, postDupHidden]⟩).body
        = blogListHead ++ weave gapsB cards ++ blogListTail) ∧
    (List.Forall₂ (fun x y => x.IsPublished = y.IsPublished)
        (BlogData.mk [postHi, postDraft]).Posts (BlogData.mk [postHiCopy, postDupHidden]).Posts →
      renderBlogList ⟨[postHi, postDraft]⟩ = renderBlogList ⟨[postHiCopy, postDupHidden]⟩) :=
  renderBlogList_independent ⟨[postHi, postDraft]⟩ ⟨[postHiCopy, postDupHidden]⟩ (by decide)

end GoBlog
